import Mathlib

/-!
Verification of the RSS-bot content pipeline (Hqzdev/RSS-bot).

The development shallowly embeds the parts of the program that the
testable properties talk about: the format-cascade fetcher
(`src/ingest.py`), the content normalizer (`src/normalizer.py`), the
SHA-256 fingerprint (`src/security.py`), and the scheduler's ingest
gate, queue drain, digest and cleanup cycles (`src/scheduler.py`).

Python strings become Lean `String`s, byte strings become `List Nat`
(each element < 256), timestamps become `Int` (seconds), and the
SQLAlchemy tables become Lean lists held in a `DbState` record, kept in
storage (insertion) order.  Behaviour that lives in external libraries
(BeautifulSoup text extraction, the markdown conversion, urllib query
rewriting, the feedparser/readability parsers, the Telegram publisher)
is passed in as explicit function or result parameters, so the embedded
control flow is exactly the source's while the library outcomes stay
universally quantified.
-/

namespace RSSBot

/-! ### String helpers (models of the Python primitives used) -/

/-- Model of `str.lower` restricted to the alphabets the program
handles: ASCII letters and the Russian Cyrillic range (including Ё). -/
def charLower (c : Char) : Char :=
  if 'A' ≤ c ∧ c ≤ 'Z' then Char.ofNat (c.toNat + 32)
  else if 'А' ≤ c ∧ c ≤ 'Я' then Char.ofNat (c.toNat + 32)
  else if c = 'Ё' then 'ё'
  else c

def strLower (s : String) : String :=
  String.mk (s.toList.map charLower)

/-- Containment of `pat` in `s` as a list of characters, modelling the
Python substring test `pat in s`. -/
def listContainsSub (s pat : List Char) : Bool :=
  match s with
  | [] => pat.isEmpty
  | _ :: rest => pat.isPrefixOf s || listContainsSub rest pat

def strContainsSub (s pat : String) : Bool :=
  listContainsSub s.toList pat.toList

/-- Model of `str.endswith(pat)`. -/
def strEndsWith (s pat : String) : Bool :=
  pat.toList.isSuffixOf s.toList

/-- Model of `str.startswith(pat)`. -/
def strStartsWith (s pat : String) : Bool :=
  pat.toList.isPrefixOf s.toList

/-- Whitespace recognizer matching the characters the program's inputs
use with the regex class `\s`. -/
def isWs (c : Char) : Bool :=
  c = ' ' || c = '\t' || c = '\n' || c = '\r'

/-- Replacement step of `re.sub(r'\s+', ' ', text)`: every maximal
whitespace run becomes a single space. -/
def collapseRuns : List Char → List Char
  | [] => []
  | [c] => if isWs c then [' '] else [c]
  | c :: d :: rest =>
    if isWs c then
      if isWs d then collapseRuns (d :: rest)
      else ' ' :: collapseRuns (d :: rest)
    else c :: collapseRuns (d :: rest)

/-- Model of `str.strip()` on whitespace. -/
def trimWs (l : List Char) : List Char :=
  ((l.dropWhile (fun c => isWs c)).reverse.dropWhile (fun c => isWs c)).reverse

/-- Model of `re.sub(r'\s+', ' ', text).strip()`. -/
def collapseWs (s : String) : String :=
  String.mk (trimWs (collapseRuns s.toList))

/-! ### SHA-256 (`SecurityManager.hash_content`, security.py lines 69-72)

The hash is implemented over byte lists with `Nat` arithmetic reduced
modulo `2 ^ 32`, following FIPS 180-4, and the digest is rendered as
the 64-character lowercase hex string `hashlib.sha256(...).hexdigest()`
returns. -/

def w32 (n : Nat) : Nat := n % 4294967296

def rotr32 (x n : Nat) : Nat :=
  w32 ((x >>> n) + (x <<< (32 - n)))

def shr32 (x n : Nat) : Nat := x >>> n

/-- Bitwise xor of two 32-bit words. -/
def xor32 (a b : Nat) : Nat := Nat.xor a b

def sha256K : List Nat :=
  [1116352408, 1899447441, 3049323471, 3921009573,
   961987163, 1508970993, 2453635748, 2870763221,
   3624381080, 310598401, 607225278, 1426881987,
   1925078388, 2162078206, 2614888103, 3248222580,
   3835390401, 4022224774, 264347078, 604807628,
   770255983, 1249150122, 1555081692, 1996064986,
   2554220882, 2821834349, 2952996808, 3210313671,
   3336571891, 3584528711, 113926993, 338241895,
   666307205, 773529912, 1294757372, 1396182291,
   1695183700, 1986661051, 2177026350, 2456956037,
   2730485921, 2820302411, 3259730800, 3345764771,
   3516065817, 3600352804, 4094571909, 275423344,
   430227734, 506948616, 659060556, 883997877,
   958139571, 1322822218, 1537002063, 1747873779,
   1955562222, 2024104815, 2227730452, 2361852424,
   2428436474, 2756734187, 3204031479, 3329325298]

/-- Eight 32-bit working registers of the compression function. -/
structure Sha256State where
  a : Nat
  b : Nat
  c : Nat
  d : Nat
  e : Nat
  f : Nat
  g : Nat
  h : Nat
deriving Repr, DecidableEq

def sha256Init : Sha256State :=
  ⟨1779033703, 3144134277, 1013904242, 2773480762,
   1359893119, 2600822924, 528734635, 1541459225⟩

/-- SHA-256 message padding: append `0x80`, zero bytes up to 56 mod 64,
then the bit length as eight big-endian bytes. -/
def sha256Pad (msg : List Nat) : List Nat :=
  let len := msg.length
  let zeros := (55 + 64 - (len % 64)) % 64
  let bitLen := len * 8
  msg ++ [128] ++ List.replicate zeros 0 ++
    ((List.range 8).map (fun i => (bitLen >>> ((7 - i) * 8)) % 256))

/-- Big-endian 32-bit word from four bytes. -/
def bytesToWord : List Nat → Nat
  | b0 :: b1 :: b2 :: b3 :: _ => b0 * 16777216 + b1 * 65536 + b2 * 256 + b3
  | _ => 0

/-- Accumulating splitter: `acc` holds the current chunk reversed and
`cap` its remaining capacity. -/
def chunks64Aux : List Nat → List Nat → Nat → List (List Nat)
  | [], acc, _ => if acc.isEmpty then [] else [acc.reverse]
  | b :: rest, acc, cap =>
    if cap = 0 then acc.reverse :: chunks64Aux rest [b] 63
    else chunks64Aux rest (b :: acc) (cap - 1)

/-- Split a list into chunks of 64 elements. -/
def chunks64 (l : List Nat) : List (List Nat) :=
  chunks64Aux l [] 64

/-- Message schedule of one 64-byte chunk: 64 words. -/
def sha256Schedule (chunk : List Nat) : Array Nat :=
  let w0 : Array Nat :=
    ((List.range 16).map (fun i => bytesToWord ((chunk.drop (4 * i)).take 4))).toArray
  (List.range 48).foldl
    (fun w t =>
      let i := t + 16
      let s0 := xor32 (xor32 (rotr32 (w[i-15]!) 7) (rotr32 (w[i-15]!) 18)) (shr32 (w[i-15]!) 3)
      let s1 := xor32 (xor32 (rotr32 (w[i-2]!) 17) (rotr32 (w[i-2]!) 19)) (shr32 (w[i-2]!) 10)
      w.push (w32 (w[i-16]! + s0 + w[i-7]! + s1)))
    w0

def sha256Round (w : Array Nat) (st : Sha256State) (t : Nat) : Sha256State :=
  let s1 := xor32 (xor32 (rotr32 st.e 6) (rotr32 st.e 11)) (rotr32 st.e 25)
  let ch := xor32 (Nat.land st.e st.f) (Nat.land (Nat.xor st.e 4294967295) st.g)
  let t1 := w32 (st.h + s1 + ch + sha256K[t]! + w[t]!)
  let s0 := xor32 (xor32 (rotr32 st.a 2) (rotr32 st.a 13)) (rotr32 st.a 22)
  let mj := xor32 (xor32 (Nat.land st.a st.b) (Nat.land st.a st.c)) (Nat.land st.b st.c)
  let t2 := w32 (s0 + mj)
  ⟨w32 (t1 + t2), st.a, st.b, st.c, w32 (st.d + t1), st.e, st.f, st.g⟩

def sha256Compress (st : Sha256State) (chunk : List Nat) : Sha256State :=
  let w := sha256Schedule chunk
  let r := (List.range 64).foldl (sha256Round w) st
  ⟨w32 (st.a + r.a), w32 (st.b + r.b), w32 (st.c + r.c), w32 (st.d + r.d),
   w32 (st.e + r.e), w32 (st.f + r.f), w32 (st.g + r.g), w32 (st.h + r.h)⟩

/-- SHA-256 digest of a byte list, as the eight final state words. -/
def sha256Words (msg : List Nat) : Sha256State :=
  (chunks64 (sha256Pad msg)).foldl sha256Compress sha256Init

def hexDigit (n : Nat) : Char :=
  if n < 10 then Char.ofNat (48 + n) else Char.ofNat (87 + n)

/-- Lowercase hex rendering of one 32-bit word, always 8 characters. -/
def word8hex (x : Nat) : List Char :=
  (List.range 8).map (fun i => hexDigit ((x >>> ((7 - i) * 4)) % 16))

/-- UTF-8 encoding of one code point, as bytes. -/
def utf8Bytes (c : Char) : List Nat :=
  let n := c.toNat
  if n < 128 then [n]
  else if n < 2048 then [192 + n / 64, 128 + n % 64]
  else if n < 65536 then [224 + n / 4096, 128 + (n / 64) % 64, 128 + n % 64]
  else [240 + n / 262144, 128 + (n / 4096) % 64, 128 + (n / 64) % 64, 128 + n % 64]

/-- UTF-8 bytes of a string, as natural numbers (`content.encode('utf-8')`). -/
def strBytes (s : String) : List Nat :=
  (s.toList.map utf8Bytes).flatten

/-- Model of `hashlib.sha256(content.encode('utf-8')).hexdigest()`
(security.py `SecurityManager.hash_content`). -/
def hash_content (content : String) : String :=
  let d := sha256Words (strBytes content)
  String.mk (word8hex d.a ++ word8hex d.b ++ word8hex d.c ++ word8hex d.d ++
             word8hex d.e ++ word8hex d.f ++ word8hex d.g ++ word8hex d.h)

/-! ### Content normalizer (`ContentNormalizer`, normalizer.py)

The regex-level text operations are implemented directly.  Two helpers
that wrap external libraries stay parameters, carried in `NormOracle`:
`stripTags` models `_remove_html_tags` (BeautifulSoup `get_text`),
`htmlToMd` models `_clean_markdown(_html_to_markdown(content))` (the
BeautifulSoup/markdown conversion), `addUtm` models
`_add_utm_parameters` (urllib query rewriting driven by the `utm_*`
settings) and `normImage` models `_normalize_image_url` (urllib
tracking-parameter stripping). -/

def isSentSep (c : Char) : Bool := c = '.' || c = '!' || c = '?'

def isPunctCh (c : Char) : Bool :=
  c = '.' || c = ',' || c = '!' || c = '?' || c = ';' || c = ':'

/-- Emit a pending hyphen run: `re.sub(r'--+', '—', text)` leaves a
single hyphen alone and turns two or more into an em dash. -/
def flushDash (n : Nat) : List Char :=
  if n = 0 then [] else if n = 1 then ['-'] else ['—']

def fixDashesAux : List Char → Nat → List Char
  | [], n => flushDash n
  | c :: rest, n =>
    if c = '-' then fixDashesAux rest (n + 1)
    else flushDash n ++ c :: fixDashesAux rest 0

/-- Model of `re.sub(r'--+', '—', text)`. -/
def fixDashes (l : List Char) : List Char := fixDashesAux l 0

/-- Model of `re.sub(r'\s+([.,!?;:])', r'\1', text)`: drop a whitespace
run immediately followed by punctuation.  `pending` holds the reversed
whitespace run currently being read. -/
def fixPunctAux : List Char → List Char → List Char
  | [], pending => pending.reverse
  | c :: rest, pending =>
    if isWs c then fixPunctAux rest (c :: pending)
    else if isPunctCh c && !pending.isEmpty then c :: fixPunctAux rest []
    else pending.reverse ++ c :: fixPunctAux rest []

/-- `ContentNormalizer._fix_typography` (normalizer.py lines 223-238).
The two quote substitutions replace a quoted span with the identical
characters (the replacement templates reuse the straight quotes), so
they are the identity and are elided here; the dash and punctuation
substitutions are modelled. -/
def fix_typography (text : String) : String :=
  if text = "" then ""
  else String.mk (fixPunctAux (fixDashes text.toList) [])

/-- Model of `re.split(r'[.!?]+', summary)`: `none` as accumulator
means the scanner is inside a separator run. -/
def splitSentGo : List Char → Option (List Char) → List (List Char)
  | [], some acc => [acc.reverse]
  | [], none => [[]]
  | c :: rest, some acc =>
    if isSentSep c then acc.reverse :: splitSentGo rest none
    else splitSentGo rest (some (c :: acc))
  | c :: rest, none =>
    if isSentSep c then splitSentGo rest none
    else splitSentGo rest (some [c])

def splitSentences (s : String) : List String :=
  (splitSentGo s.toList (some [])).map String.mk

/-- `ContentNormalizer._normalize_title` (strip markup, collapse
whitespace, truncate to 200 with ellipsis, typography fixes). -/
def normalize_title (stripTags : String → String) (title : String) : String :=
  if title = "" then ""
  else
    let t := collapseWs (stripTags title)
    let t := if t.length > 200 then String.mk (t.toList.take 197) ++ "..." else t
    fix_typography t

/-- `ContentNormalizer._normalize_summary` (strip markup, collapse
whitespace, keep at most three sentences, truncate to 300). -/
def normalize_summary (stripTags : String → String) (summary : String) : String :=
  if summary = "" then ""
  else
    let s := collapseWs (stripTags summary)
    let sentences := splitSentences s
    let s := if sentences.length > 3 then String.intercalate ". " (sentences.take 3) ++ "." else s
    if s.length > 300 then String.mk (s.toList.take 297) ++ "..." else s

/-- `ContentNormalizer._normalize_content`: markdown conversion and
cleanup (the `htmlToMd` parameter), then truncation to 2000. -/
def normalize_content (htmlToMd : String → String) (content : String) : String :=
  if content = "" then ""
  else
    let c := htmlToMd content
    if c.length > 2000 then String.mk (c.toList.take 1997) ++ "..." else c

/-- `ContentNormalizer._detect_language`: count characters of the
regexes `[а-яё]` and `[a-z]` over the lowercased text; ties and empty
input default to Russian. -/
def detect_language (text : String) : String :=
  if text = "" then "ru"
  else
    let low := (strLower text).toList
    let cyrillicCount := (low.filter (fun c => ('а' ≤ c && c ≤ 'я') || c = 'ё')).length
    let latinCount := (low.filter (fun c => 'a' ≤ c && c ≤ 'z')).length
    if cyrillicCount > latinCount then "ru"
    else if latinCount > cyrillicCount then "en"
    else "ru"

/-- Word characters of the regex `\w` over the alphabets the program
handles (ASCII alphanumerics, underscore, Cyrillic). -/
def isWordChar (c : Char) : Bool :=
  ('a' ≤ c && c ≤ 'z') || ('A' ≤ c && c ≤ 'Z') || ('0' ≤ c && c ≤ '9') || c = '_' ||
  ('а' ≤ c && c ≤ 'я') || ('А' ≤ c && c ≤ 'Я') || c = 'ё' || c = 'Ё'

/-- Count of `re.findall(r'\b\w+\b', text)`: the number of maximal
nonempty word-character runs. -/
def countWordRuns : List Char → Bool → Nat
  | [], _ => 0
  | c :: rest, inWord =>
    if isWordChar c then (if inWord then 0 else 1) + countWordRuns rest true
    else countWordRuns rest false

/-- `ContentNormalizer._count_words`: strip markup, then count word
runs. -/
def count_words (stripTags : String → String) (text : String) : Nat :=
  if text = "" then 0
  else countWordRuns (stripTags text).toList false

/-- Characters after the first `://`, if any. -/
def afterScheme : List Char → Option (List Char)
  | [] => none
  | ':' :: '/' :: '/' :: rest => some rest
  | _ :: rest => afterScheme rest

/-- Authority part of `urllib.parse.urlparse(url).netloc`, modelled for
absolute URLs of the `scheme://host/...` shape the program receives:
the text after `://` up to the first `/`, `?` or `#`; no netloc
otherwise. -/
def urlNetloc (url : String) : String :=
  match afterScheme url.toList with
  | some rest =>
    String.mk (rest.takeWhile (fun c => c ≠ '/' && c ≠ '?' && c ≠ '#'))
  | none => ""

/-- `ContentNormalizer._extract_domain`: `None` for an empty URL,
otherwise the lowercased netloc with a leading `www.` removed (possibly
the empty string, which the caller treats as falsy). -/
def extract_domain (url : String) : Option String :=
  if url = "" then none
  else
    let d := strLower (urlNetloc url)
    some (if strStartsWith d "www." then String.mk (d.toList.drop 4) else d)

/-- Keyword table `common_tags` of `_generate_hashtags` (normalizer.py
lines 273-289), in source (insertion) order. -/
def common_tags : List (String × List String) :=
  [("новости", ["новости", "новость", "новостей"]),
   ("технологии", ["технологии", "технология", "tech", "technology"]),
   ("ai", ["искусственный интеллект", "ai", "artificial intelligence", "машинное обучение"]),
   ("telegram", ["telegram", "телеграм"]),
   ("программирование", ["программирование", "код", "разработка", "coding"]),
   ("криптовалюта", ["криптовалюта", "биткоин", "blockchain", "crypto"]),
   ("игры", ["игры", "game", "gaming"]),
   ("финансы", ["финансы", "экономика", "деньги", "finance"]),
   ("спорт", ["спорт", "футбол", "баскетбол", "sport"]),
   ("политика", ["политика", "политик", "государство"]),
   ("наука", ["наука", "исследование", "science"]),
   ("здоровье", ["здоровье", "медицина", "health"]),
   ("образование", ["образование", "учеба", "education"]),
   ("культура", ["культура", "искусство", "art"]),
   ("путешествия", ["путешествия", "туризм", "travel"])]

/-- `ContentNormalizer._generate_hashtags` (normalizer.py lines
264-312): keyword-category tags (first matching keyword per category,
in table order), then a domain tag, then a language tag, truncated to
five.  `lang` is the value of `item.get('lang', 'ru')` at call time; in
`normalize_item` the `lang` key has not been set yet, so `none` is
passed there. -/
def generate_hashtags (title summary content link : String) (lang : Option String) : List String :=
  let text := strLower (title ++ " " ++ summary ++ " " ++ content)
  let keywordTags := common_tags.foldl
    (fun acc tk =>
      if tk.2.any (fun kw => strContainsSub text kw) then acc ++ ["#" ++ tk.1] else acc) []
  let withDomain :=
    match extract_domain link with
    | some d =>
      if d ≠ "" then
        keywordTags ++ ["#" ++ String.mk (d.toList.map (fun c => if c = '.' || c = '-' then '_' else c))]
      else keywordTags
    | none => keywordTags
  let lg := lang.getD "ru"
  let withLang :=
    if lg = "en" then withDomain ++ ["#english"]
    else if lg = "ru" then withDomain ++ ["#русский"]
    else withDomain
  withLang.take 5

/-- External text transformations `normalize_item` depends on; see the
section comment. -/
structure NormOracle where
  stripTags : String → String
  htmlToMd : String → String
  addUtm : String → String
  normImage : Option String → Option String

/-- Dictionary produced by `FeedItem.to_dict()` (ingest.py lines 37-51)
with the `feed_id` key the scheduler adds before normalization. -/
structure RawDict where
  guid : String
  title : String
  link : String
  published_at : Option Int
  summary : String
  content : String
  image_url : Option String
  tags : List String
  author : String
  feed_url : String
  feed_title : String
  feed_id : Nat
deriving DecidableEq, Repr

/-- The same dictionary after `normalize_item` added its keys. -/
structure NormDict extends RawDict where
  content_hash : String
  hashtags : List String
  lang : String
  word_count : Nat

/-- `ContentNormalizer.normalize_item` (normalizer.py lines 28-59), in
source order: normalize the three text fields, rewrite the link,
fingerprint the concatenation of the normalized fields, derive
hashtags from the updated fields, normalize the image URL, detect the
language over the updated title and summary, and count words of the
updated content. -/
def normalize_item (or : NormOracle) (d : RawDict) : NormDict :=
  let title := normalize_title or.stripTags d.title
  let summary := normalize_summary or.stripTags d.summary
  let content := normalize_content or.htmlToMd d.content
  let link := or.addUtm d.link
  let contentForHash := title ++ summary ++ content
  let contentHash := hash_content contentForHash
  let hashtags := generate_hashtags title summary content link none
  let imageUrl := or.normImage d.image_url
  let lang := detect_language (title ++ " " ++ summary)
  let wordCount := count_words or.stripTags content
  { d with
    title := title, summary := summary, content := content, link := link,
    image_url := imageUrl,
    content_hash := contentHash, hashtags := hashtags, lang := lang,
    word_count := wordCount }

/-! ### Data model (database.py)

The SQLAlchemy tables the claims touch, as Lean records; each table is
a list kept in storage (insertion) order.  `Item` deliberately has no
`word_count` field, exactly as the `items` table in database.py lines
44-72 declares no such column — `_create_digest` depends on this. -/

structure Feed where
  id : Nat
  url : String
  enabled : Bool
deriving DecidableEq, Repr

structure Item where
  id : Nat
  feed_id : Nat
  guid : String
  title : String
  link : String
  published_at : Option Int
  content_hash : String
  has_media : Bool
  summary : String
  content : String
  image_url : Option String
  tags : List String
  created_at : Int
deriving DecidableEq, Repr

structure QueueItem where
  id : Nat
  item_id : Nat
  type : String
  channel_id : Option String
  scheduled_at : Option Int
  status : String
  attempts : Nat
  last_attempt_at : Option Int
  error_msg : Option String
  created_at : Int
deriving DecidableEq, Repr

structure Publish where
  id : Nat
  item_id : Nat
  target : String
  type : String
  message_id : Option String
  posted_at : Int
  created_at : Int
deriving DecidableEq, Repr

structure DbState where
  items : List Item
  queue : List QueueItem
  publishes : List Publish
deriving DecidableEq, Repr

/-! ### Ingest gate and publication queue (`RSSScheduler`, scheduler.py) -/

/-- Raw feed item (`FeedItem`, ingest.py lines 21-51). -/
structure FeedItemR where
  guid : String
  title : String
  link : String
  published_at : Option Int
  summary : String
  content : String
  image_url : Option String
  tags : List String
  author : String
  feed_url : String
  feed_title : String
deriving DecidableEq, Repr

/-- `feed_item.to_dict()` followed by `item_dict['feed_id'] = feed.id`
(scheduler.py lines 185-186). -/
def rawDictOfFeedItem (fi : FeedItemR) (feedId : Nat) : RawDict :=
  { guid := fi.guid, title := fi.title, link := fi.link,
    published_at := fi.published_at, summary := fi.summary,
    content := fi.content, image_url := fi.image_url, tags := fi.tags,
    author := fi.author, feed_url := fi.feed_url,
    feed_title := fi.feed_title, feed_id := feedId }

/-- The dedup lookup of `_poll_single_feed` (scheduler.py lines
176-179): an `Item` row with this feed id and GUID exists. -/
def itemExistsFor (st : DbState) (feedId : Nat) (guid : String) : Bool :=
  st.items.any (fun it => it.feed_id == feedId && it.guid == guid)

/-- Autoincrement primary key for a fresh `Item` row. -/
def nextItemId (st : DbState) : Nat :=
  (st.items.map Item.id).foldr max 0 + 1

/-- Autoincrement primary key for a fresh `QueueItem` row. -/
def nextQueueId (st : DbState) : Nat :=
  (st.queue.map QueueItem.id).foldr max 0 + 1

/-- `RSSScheduler._add_to_queue` (scheduler.py lines 279-295): one new
queue row with the given type, the given `scheduled_at` (the scheduler
passes `None`), status `"pending"` and the column defaults. -/
def add_to_queue (st : DbState) (itemId : Nat) (pubType : String)
    (scheduledAt : Option Int) (now : Int) : DbState :=
  { st with queue := st.queue ++
      [{ id := nextQueueId st, item_id := itemId, type := pubType,
         channel_id := none, scheduled_at := scheduledAt,
         status := "pending", attempts := 0, last_attempt_at := none,
         error_msg := none, created_at := now }] }

/-- One iteration of the item loop in `RSSScheduler._poll_single_feed`
(scheduler.py lines 173-221): dedup lookup by (feed id, GUID);
normalize and insert the row on a miss; then either send the
moderation preview (notifier and Redis only — no database write,
publisher.py lines 216-259) or enqueue a `post`.  Returns the new
state and whether a new Entry was created. -/
def ingestOne (or : NormOracle) (modEnabled : Option String) (feed : Feed)
    (now : Int) (st : DbState) (fi : FeedItemR) : DbState × Bool :=
  if itemExistsFor st feed.id fi.guid then (st, false)
  else
    let n := normalize_item or (rawDictOfFeedItem fi feed.id)
    let dbItem : Item :=
      { id := nextItemId st, feed_id := feed.id, guid := n.guid,
        title := n.title, link := n.link, published_at := n.published_at,
        content_hash := n.content_hash, has_media := n.image_url.isSome,
        summary := n.summary, content := n.content,
        image_url := n.image_url, tags := n.hashtags, created_at := now }
    let st' := { st with items := st.items ++ [dbItem] }
    if modEnabled == some "true" then (st', true)
    else (add_to_queue st' dbItem.id "post" none now, true)

/-- The item loop of `_poll_single_feed` over one fetched payload,
counting `new_items_count`. -/
def poll_single_feed (or : NormOracle) (modEnabled : Option String)
    (feed : Feed) (now : Int) : DbState → List FeedItemR → DbState × Nat
  | st, [] => (st, 0)
  | st, fi :: rest =>
    let r := ingestOne or modEnabled feed now st fi
    let p := poll_single_feed or modEnabled feed now r.1 rest
    (p.1, (if r.2 then 1 else 0) + p.2)

/-- Due test of the drain query (scheduler.py line 305):
`scheduled_at IS NULL OR scheduled_at <= now`. -/
def dueNow (q : QueueItem) (now : Int) : Bool :=
  match q.scheduled_at with
  | none => true
  | some t => t ≤ now

/-- Batch selection of `RSSScheduler._process_queue` (scheduler.py
lines 303-306): filter by status `"pending"` and dueness, `LIMIT 10`.
The query has no `order_by`, so rows come back in storage order. -/
def select_batch (queue : List QueueItem) (now : Int) : List QueueItem :=
  (queue.filter (fun q => q.status == "pending" && dueNow q now)).take 10

/-- `RSSScheduler._process_queue_item` (scheduler.py lines 327-389),
as the list of successive committed versions of the queue row.
`postResult` is the `(success, error)` outcome of
`publisher.publish_post`; the not-found path commits a failure without
ever entering `processing`, the `post` path raises on a missing
channel or a failed delivery and the handler adds one attempt, and the
`story` path commits `failed` without touching `attempts`. -/
def process_queue_item (st : DbState) (defaultChannel : Option String)
    (postResult : Bool × String) (now : Int) (q : QueueItem) : List QueueItem :=
  if (st.items.find? (fun it => it.id == q.item_id)).isNone then
    [{ q with status := "failed", error_msg := some "Item not found" }]
  else
    let q1 := { q with status := "processing", last_attempt_at := some now }
    let failWith (msg : String) : QueueItem :=
      { q1 with status := "failed", error_msg := some msg, attempts := q1.attempts + 1 }
    if q.type == "post" then
      match defaultChannel with
      | none => [q1, failWith "No default channel configured"]
      | some _ =>
        if postResult.1 then
          [q1, { q1 with status := "completed" }]
        else
          [q1, failWith ("Failed to publish post: " ++ postResult.2)]
    else if q.type == "story" then
      [q1, { q1 with status := "failed", error_msg := some "Story publication requires admin context" }]
    else
      [q1]

/-! ### Digest cycle (`RSSScheduler._create_digest`, scheduler.py lines 391-435) -/

/-- Observable outcome of one digest cycle: the `publish_post` calls
made (channel, text) and whether an exception escaped the method. -/
structure DigestResult where
  calls : List (String × String)
  raised : Bool
deriving DecidableEq, Repr

/-- Model of `db.query(Item).filter(Item.created_at >= yesterday)
.order_by(Item.word_count.desc()).limit(10).all()` (scheduler.py lines
399-401).  The `Item` model declares no `word_count` column (database.py
lines 44-72), so evaluating `Item.word_count` while building the query
raises `AttributeError` before any row is read; the embedding returns
that failure. -/
def digestQuery (_st : DbState) (_yesterday : Int) : Except String (List Item) :=
  Except.error "AttributeError: type object Item has no attribute word_count"

/-- Digest body text built from the selected items (scheduler.py lines
408-415). -/
def digestText (topItems : List Item) : String :=
  (topItems.enumFrom 1).foldl
    (fun acc p =>
      let line := toString p.1 ++ ". [" ++ p.2.title ++ "](" ++ p.2.link ++ ")\n"
      let line := line ++
        (if p.2.summary ≠ "" then
          "   " ++ (if p.2.summary.length > 100 then
                      String.mk (p.2.summary.toList.take 100) ++ "..."
                    else p.2.summary) ++ "\n"
         else "")
      acc ++ line ++ "\n")
    "📰 *Дайджест за последние 24 часа*\n\n"

/-- `RSSScheduler._create_digest`: the whole body sits in a `try` whose
handler logs, so nothing ever propagates; the broken query makes every
cycle return before any `publish_post` call. -/
def create_digest (st : DbState) (now : Int) (defaultChannel : Option String) : DigestResult :=
  let yesterday := now - 86400
  match digestQuery st yesterday with
  | .error _ => { calls := [], raised := false }
  | .ok topItems =>
    if topItems.isEmpty then { calls := [], raised := false }
    else
      match defaultChannel with
      | none => { calls := [], raised := false }
      | some ch => { calls := [(ch, digestText topItems)], raised := false }

/-! ### Retention cleanup (`RSSScheduler._cleanup_old_data`, scheduler.py lines 437-470) -/

/-- Point at which an injected exception interrupts the cleanup body. -/
inductive CleanupStep
  | itemsPurge
  | queuePurge
  | publishesPurge
deriving DecidableEq, Repr

/-- `RSSScheduler._cleanup_old_data`: the three purges (items older
than 30 days, terminal queue rows older than 7 days, publish records
older than 30 days) run inside a single `try` block and the session
commits once, at the end.  `failAt` injects an exception at one of the
three steps; it is caught by the surrounding handler before the
commit, so the buffered deletions of every step — including those that
ran before the failing one — are not persisted. -/
def cleanup_old_data (st : DbState) (now : Int) (failAt : Option CleanupStep) : DbState :=
  match failAt with
  | some .itemsPurge => st
  | some .queuePurge => st
  | some .publishesPurge => st
  | none =>
    let thirtyDaysAgo := now - 2592000
    let sevenDaysAgo := now - 604800
    { st with
      items := st.items.filter (fun it => !decide (it.created_at < thirtyDaysAgo)),
      queue := st.queue.filter (fun q =>
        !(decide (q.created_at < sevenDaysAgo) &&
          (q.status == "completed" || q.status == "failed"))),
      publishes := st.publishes.filter (fun p => !decide (p.posted_at < thirtyDaysAgo)) }

/-! ### Format-cascade fetcher (`RSSIngester`, ingest.py) -/

/-- Result triple `(success, items, error)` of `fetch_feed` and the
parse helpers. -/
structure ParseRes where
  success : Bool
  items : List FeedItemR
  error : String
deriving DecidableEq, Repr

/-- `RSSIngester.fetch_feed` (ingest.py lines 78-114).  `status` and
`reason` come from the HTTP response, `contentType` is the declared
content type, and the three parser outcomes — `_parse_xml_feed`,
`_parse_json_feed` and `_parse_html_fallback` applied to the fetched
payload — enter as parameters, since they wrap feedparser, `json` and
readability.  A JSON-ish declared type goes straight to the JSON
parser, an XML-ish one straight to the XML parser; otherwise the
parsers run in the order XML, JSON, HTML, and the result of the first
one reporting success is returned as-is. -/
def fetch_feed (status : Nat) (reason : String) (contentType url : String)
    (xmlRes jsonRes htmlRes : ParseRes) : ParseRes :=
  if status ≠ 200 then
    { success := false, items := [], error := "HTTP " ++ toString status ++ ": " ++ reason }
  else
    let ct := strLower contentType
    if strContainsSub ct "json" || strEndsWith url ".json" then jsonRes
    else if strContainsSub ct "xml" || strContainsSub ct "rss" || strContainsSub ct "atom" then
      xmlRes
    else if xmlRes.success then xmlRes
    else if jsonRes.success then jsonRes
    else htmlRes

/-! ### HTML fallback (`RSSIngester._parse_html_fallback`, ingest.py lines 184-247) -/

/-- One DOM region returned by `soup.select(selector)`: its
`get_text()` and the image `_extract_html_image` finds in it. -/
structure HtmlRegion where
  text : String
  image : Option String
deriving DecidableEq, Repr

/-- The selector loop (ingest.py lines 202-205): starting from an
empty list, extend with each selector's matches and break as soon as
the list is nonempty — so the result is the first selector's nonempty
match list, or empty. -/
def selectArticles : List (List HtmlRegion) → List HtmlRegion
  | [] => []
  | m :: rest => if m.isEmpty then selectArticles rest else m

/-- `RSSIngester._generate_guid` (ingest.py lines 397-401): SHA-256
hex of the first 100 characters of the element text plus the URL. -/
def generate_guid (elementText url : String) : String :=
  hash_content (String.mk (elementText.toList.take 100) ++ url)

/-- `RSSIngester._clean_text` (ingest.py lines 383-395): strip markup
(BeautifulSoup, the `stripTags` parameter), then collapse whitespace
and trim. -/
def ingest_clean_text (stripTags : String → String) (text : String) : String :=
  if text = "" then "" else collapseWs (stripTags text)

/-- `RSSIngester._parse_html_fallback`.  `stripTags` models the
BeautifulSoup `get_text` used by `_clean_text`; `selectorMatches` holds
`soup.select(selector)` per selector in source order; `docTitle` and
`docContent` are readability's `Document(content).title()` and
`.summary()`; `pageText` is `soup.get_text()` of the whole page and
`pageImage` the page-level `_extract_html_image(soup)`. -/
def parse_html_fallback (stripTags : String → String)
    (selectorMatches : List (List HtmlRegion))
    (docTitle docContent pageText : String) (pageImage : Option String)
    (url : String) (now : Int) : ParseRes :=
  let articles := selectArticles selectorMatches
  let feedTitle := if docTitle = "" then urlNetloc url else docTitle
  if !articles.isEmpty then
    { success := true,
      items := (articles.take 10).map (fun a =>
        { guid := generate_guid a.text url,
          title := ingest_clean_text stripTags (String.mk (a.text.toList.take 100)),
          link := url,
          published_at := some now,
          summary := ingest_clean_text stripTags (String.mk (a.text.toList.take 200)),
          content := ingest_clean_text stripTags a.text,
          image_url := a.image, tags := [], author := "",
          feed_url := url, feed_title := feedTitle }),
      error := "" }
  else
    { success := true,
      items := [{ guid := generate_guid pageText url,
                  title := feedTitle,
                  link := url,
                  published_at := some now,
                  summary := ingest_clean_text stripTags (String.mk (docContent.toList.take 200)),
                  content := ingest_clean_text stripTags docContent,
                  image_url := pageImage, tags := [], author := "",
                  feed_url := url, feed_title := feedTitle }],
      error := "" }

/-! ### Spec-side ordering predicate for the drain batch -/

/-- Dueness comparison between two queue rows; an absent
`scheduled_at` counts as immediately due. -/
def dueLE (a b : QueueItem) : Bool :=
  match a.scheduled_at, b.scheduled_at with
  | none, _ => true
  | some _, none => false
  | some x, some y => decide (x ≤ y)

/-- Stated from the spec's words ("oldest-due-first" selection), for
comparison with `select_batch`: each selected entry is due no later
than every entry after it in the batch. -/
def oldestDueFirstSpec : List QueueItem → Bool
  | [] => true
  | q :: rest => rest.all (fun r => dueLE q r) && oldestDueFirstSpec rest

/-! ### Concrete example values used by witnesses and counterexamples -/

def emptyDb : DbState := { items := [], queue := [], publishes := [] }

/-- Identity instantiation of the external text transformations. -/
def ora0 : NormOracle :=
  { stripTags := fun s => s, htmlToMd := fun s => s,
    addUtm := fun s => s, normImage := fun o => o }

def exFeed : Feed := { id := 1, url := "http://site.example/feed", enabled := true }

def exFeedItem : FeedItemR :=
  { guid := "abc", title := "t", link := "http://site.example/a",
    published_at := none, summary := "", content := "", image_url := none,
    tags := [], author := "", feed_url := "http://site.example/feed",
    feed_title := "T" }

def exQ1 : QueueItem :=
  { id := 1, item_id := 1, type := "post", channel_id := none,
    scheduled_at := some 10, status := "pending", attempts := 0,
    last_attempt_at := none, error_msg := none, created_at := 0 }

def exQ2 : QueueItem :=
  { id := 2, item_id := 2, type := "post", channel_id := none,
    scheduled_at := some 5, status := "pending", attempts := 0,
    last_attempt_at := none, error_msg := none, created_at := 1 }

def exOldItem : Item :=
  { id := 1, feed_id := 1, guid := "g", title := "t", link := "l",
    published_at := none, content_hash := "h", has_media := false,
    summary := "", content := "", image_url := none, tags := [],
    created_at := 0 }

def exOldQueueDone : QueueItem :=
  { id := 1, item_id := 1, type := "post", channel_id := none,
    scheduled_at := none, status := "completed", attempts := 1,
    last_attempt_at := none, error_msg := none, created_at := 0 }

def exOldPublish : Publish :=
  { id := 1, item_id := 1, target := "ch", type := "post",
    message_id := none, posted_at := 0, created_at := 0 }

def exCleanupSt : DbState :=
  { items := [exOldItem], queue := [exOldQueueDone], publishes := [exOldPublish] }

def exStoryQ : QueueItem :=
  { id := 1, item_id := 1, type := "story", channel_id := none,
    scheduled_at := none, status := "pending", attempts := 0,
    last_attempt_at := none, error_msg := none, created_at := 0 }

def exPostQ : QueueItem :=
  { id := 2, item_id := 1, type := "post", channel_id := none,
    scheduled_at := none, status := "pending", attempts := 0,
    last_attempt_at := none, error_msg := none, created_at := 0 }

def exItemDb : DbState :=
  { items := [exOldItem], queue := [exStoryQ], publishes := [] }

def exRaw1 : RawDict :=
  { guid := "g1", title := "ab", link := "http://a.example/1",
    published_at := none, summary := "", content := "", image_url := none,
    tags := [], author := "", feed_url := "http://a.example/feed",
    feed_title := "A", feed_id := 1 }

def exRaw2 : RawDict :=
  { guid := "g2", title := "a", link := "http://b.example/2",
    published_at := none, summary := "b", content := "", image_url := none,
    tags := [], author := "", feed_url := "http://b.example/feed",
    feed_title := "B", feed_id := 2 }

def exStoryQProc : QueueItem :=
  { exStoryQ with status := "processing", last_attempt_at := some 5 }

def exStoryQFailed : QueueItem :=
  { exStoryQ with
    status := "failed", last_attempt_at := some 5,
    error_msg := some "Story publication requires admin context" }

def exXmlEmpty : ParseRes := { success := true, items := [], error := "" }

def exJsonFail : ParseRes :=
  { success := false, items := [], error := "Invalid JSON Feed format" }

def exHtmlOne : ParseRes := { success := true, items := [exFeedItem], error := "" }

def exFetchRes : ParseRes :=
  fetch_feed 200 "OK" "text/html" "http://site.example/feed" exXmlEmpty exJsonFail exHtmlOne

/-! ## Theorems -/

theorem word8hex_length (x : Nat) : (word8hex x).length = 8 := by
  simp [word8hex]

/-- Every fingerprint the hash produces is 64 hex characters wide. -/
theorem hash_content_length (s : String) : (hash_content s).length = 64 := by
  simp [hash_content, String.length, word8hex_length]

/-- Every entry of a drain batch is pending and due: the selection
filters on exactly these two conditions before taking ten. -/
theorem select_batch_mem (queue : List QueueItem) (now : Int) :
    ∀ q ∈ select_batch queue now, q.status = "pending" ∧ dueNow q now = true := by
  intro q hq
  have hq2 : q ∈ queue.filter (fun q => q.status == "pending" && dueNow q now) := by
    have hsub : (queue.filter (fun q => q.status == "pending" && dueNow q now)).take 10 ⊆
        queue.filter (fun q => q.status == "pending" && dueNow q now) :=
      List.take_subset _ _
    exact hsub hq
  have := (List.mem_filter.mp hq2).2
  simp only [Bool.and_eq_true, beq_iff_eq] at this
  exact this

/-- C5 (counterexample): the drain query of `_process_queue` has no
`order_by`, so the batch comes back in storage order; with two due
pending rows where the later-stored one is due earlier, the selected
batch is not oldest-due-first. -/
theorem c5_counterexample :
    select_batch [exQ1, exQ2] 10 = [exQ1, exQ2] ∧
    oldestDueFirstSpec (select_batch [exQ1, exQ2] 10) = false ∧
    exQ1.scheduled_at = some 10 ∧ exQ2.scheduled_at = some 5 := by
  decide

/-- C5 (amended): each queue-drain cycle selects only QueueEntries with
status `pending` whose `scheduled_at` is null or not after the current
time, takes at most 10 of them, and returns them as an order-preserving
sub-sequence of the queue's storage order (no ordering by due time is
applied). -/
theorem c5_batch_amended (queue : List QueueItem) (now : Int) :
    (select_batch queue now).length ≤ 10 ∧
    (∀ q ∈ select_batch queue now, q.status = "pending" ∧ dueNow q now = true) ∧
    (select_batch queue now).Sublist queue := by
  refine ⟨?_, select_batch_mem queue now, ?_⟩
  · simp only [select_batch]
    rw [List.length_take]
    exact min_le_left _ _
  · exact ((List.take_sublist _ _).trans (List.filter_sublist _))

/-- C5 (amended) witness at a concrete queue. -/
theorem c5_batch_amended_witness :
    (select_batch [exQ1, exQ2] 10).length ≤ 10 ∧
    (exQ1.status = "pending" ∧ dueNow exQ1 10 = true) :=
  ⟨(c5_batch_amended [exQ1, exQ2] 10).1,
   (c5_batch_amended [exQ1, exQ2] 10).2.1 exQ1 (by decide)⟩

/-- C4 (counterexample): `fetch_feed` stops at the first parser that
does not error even when that parser returns zero items, and then
reports success with an empty sequence.  `exXmlEmpty = (True, [], "")`
is what `_parse_xml_feed` returns on a well-formed feed document with
an empty channel (feedparser: `bozo = 0`, `entries = []`), e.g.
`<rss version="2.0"><channel><title>t</title></channel></rss>` served
as `text/html`; the JSON parser is never consulted and the HTML
fallback, which would have produced an item, is never reached. -/
theorem c4_counterexample :
    exFetchRes = exXmlEmpty ∧ exFetchRes.success = true ∧
    exFetchRes.items = [] ∧ exHtmlOne.items ≠ [] := by
  decide

/-- C4 (amended): when neither the JSON-ish nor the XML-ish
content-type test selects a parser, `fetch_feed` attempts the parsers
in the fixed order XML, JSON, HTML and returns the result of the first
one that does not error, regardless of whether its item sequence is
empty; the overall result is that parser's result (a success may carry
an empty sequence) or a typed failure. -/
theorem c4_cascade_amended (status : Nat) (reason ct url : String)
    (xmlRes jsonRes htmlRes : ParseRes)
    (hok : status = 200)
    (hnotjson : (strContainsSub (strLower ct) "json" || strEndsWith url ".json") = false)
    (hnotxml : (strContainsSub (strLower ct) "xml" || strContainsSub (strLower ct) "rss" ||
        strContainsSub (strLower ct) "atom") = false) :
    fetch_feed status reason ct url xmlRes jsonRes htmlRes =
      (if xmlRes.success then xmlRes
       else if jsonRes.success then jsonRes else htmlRes) := by
  subst hok
  simp [fetch_feed, hnotjson, hnotxml]

/-- C4 (amended) witness at the counterexample's concrete inputs. -/
theorem c4_cascade_amended_witness :
    ((strContainsSub (strLower "text/html") "json" ||
      strEndsWith "http://site.example/feed" ".json") = false) ∧
    fetch_feed 200 "OK" "text/html" "http://site.example/feed" exXmlEmpty exJsonFail exHtmlOne =
      (if exXmlEmpty.success then exXmlEmpty
       else if exJsonFail.success then exJsonFail else exHtmlOne) :=
  ⟨by decide,
   c4_cascade_amended 200 "OK" "text/html" "http://site.example/feed"
     exXmlEmpty exJsonFail exHtmlOne rfl (by decide) (by decide)⟩

/-- C7: a digest cycle with zero qualifying entries in the trailing
24-hour window makes no `publish_post` call and lets no exception
escape.  (In the code this holds for every cycle: the `Item` model has
no `word_count` column, so building the digest query raises
`AttributeError`, which the cycle's handler catches before any
delivery call.) -/
theorem c7_digest_empty (st : DbState) (now : Int) (ch : Option String)
    (_hempty : st.items.filter (fun it => decide (now - 86400 ≤ it.created_at)) = []) :
    (create_digest st now ch).calls = [] ∧ (create_digest st now ch).raised = false := by
  exact ⟨rfl, rfl⟩

/-- C7 witness at a concrete empty store. -/
theorem c7_digest_empty_witness :
    emptyDb.items.filter (fun it => decide (1000 - 86400 ≤ it.created_at)) = [] ∧
    (create_digest emptyDb 1000 (some "ch")).calls = [] ∧
    (create_digest emptyDb 1000 (some "ch")).raised = false :=
  ⟨by decide,
   (c7_digest_empty emptyDb 1000 (some "ch") (by decide)).1,
   (c7_digest_empty emptyDb 1000 (some "ch") (by decide)).2⟩

/-- C8 (counterexample): the three purges of `_cleanup_old_data` share
one `try` block and one final commit, so a failure while purging the
queue table also discards the already-buffered item deletions: with an
over-30-days-old item in the store, a cycle whose queue purge fails
leaves the state untouched, although a run without failure would have
deleted the item. -/
theorem c8_counterexample :
    cleanup_old_data exCleanupSt 10000000 (some CleanupStep.queuePurge) = exCleanupSt ∧
    (cleanup_old_data exCleanupSt 10000000 none).items = [] ∧
    exCleanupSt.items ≠ [] := by
  decide

/-- C8 (amended): the deletions are not independent per table — a
failure at any of the three steps aborts the single transaction and
none of the deletions take effect; only a cycle with no failure purges
all three tables (leaving no over-age item, no over-age terminal queue
row and no over-age publish record). -/
theorem c8_cleanup_amended (st : DbState) (now : Int) :
    (∀ step : CleanupStep, cleanup_old_data st now (some step) = st) ∧
    (∀ it ∈ (cleanup_old_data st now none).items, ¬ it.created_at < now - 2592000) ∧
    (∀ q ∈ (cleanup_old_data st now none).queue,
        ¬ (q.created_at < now - 604800 ∧ (q.status = "completed" ∨ q.status = "failed"))) ∧
    (∀ p ∈ (cleanup_old_data st now none).publishes, ¬ p.posted_at < now - 2592000) := by
  refine ⟨fun step => by cases step <;> rfl, ?_, ?_, ?_⟩
  · intro it hit
    have h := (List.mem_filter.mp hit).2
    simpa using h
  · intro q hq
    have h := (List.mem_filter.mp hq).2
    simp only [Bool.not_eq_eq_eq_not, Bool.not_true, Bool.and_eq_false_imp,
      decide_eq_true_eq] at h
    simp only [not_and, not_or]
    intro hlt
    have h2 := h hlt
    constructor <;> intro heq <;> simp [heq] at h2
  · intro p hp
    have h := (List.mem_filter.mp hp).2
    simpa using h

/-- C8 (amended) witness at a concrete store. -/
theorem c8_cleanup_amended_witness :
    cleanup_old_data exCleanupSt 100 (some CleanupStep.itemsPurge) = exCleanupSt ∧
    ¬ exOldItem.created_at < (100 : Int) - 2592000 :=
  ⟨(c8_cleanup_amended exCleanupSt 100).1 CleanupStep.itemsPurge,
   (c8_cleanup_amended exCleanupSt 100).2.1 exOldItem (by decide)⟩

/-- C10: a normalized item gets at most five hashtags, and because the
keyword-category tags are appended before the domain tag and the
language tag, an item matching five keyword categories has its domain
tag and its language tag silently dropped by the cap: the concrete
item below matches five categories, its link has the nonempty domain
`example.com`, yet neither `#example_com` nor the language tag
`#русский` appears in the result. -/
theorem c10_hashtag_cap :
    (∀ (title summary content link : String) (lang : Option String),
        (generate_hashtags title summary content link lang).length ≤ 5) ∧
    (generate_hashtags "новости технологии ai telegram код" "" "" "https://example.com/x" none =
        ["#новости", "#технологии", "#ai", "#telegram", "#программирование"] ∧
      extract_domain "https://example.com/x" = some "example.com" ∧
      "#example_com" ∉
        generate_hashtags "новости технологии ai telegram код" "" "" "https://example.com/x" none ∧
      "#русский" ∉
        generate_hashtags "новости технологии ai telegram код" "" "" "https://example.com/x" none) := by
  constructor
  · intro t s c l lg
    simp only [generate_hashtags]
    rw [List.length_take]
    exact min_le_left _ _
  · exact ⟨by decide, by decide, by decide, by decide⟩

/-- C10 witness at a concrete item. -/
theorem c10_hashtag_cap_witness :
    (generate_hashtags "t" "s" "c" "https://example.com/x" none).length ≤ 5 ∧
    "#русский" ∉
      generate_hashtags "новости технологии ai telegram код" "" "" "https://example.com/x" none :=
  ⟨c10_hashtag_cap.1 "t" "s" "c" "https://example.com/x" none,
   c10_hashtag_cap.2.2.2.2⟩

/-- When every selector produced no match, the extend-and-break loop
leaves the article list empty. -/
theorem selectArticles_eq_nil (ms : List (List HtmlRegion)) (h : ∀ m ∈ ms, m = []) :
    selectArticles ms = [] := by
  induction ms with
  | nil => rfl
  | cons m rest ih =>
    have hm : m = [] := h m (by simp)
    subst hm
    simpa [selectArticles] using ih (fun m2 hm2 => h m2 (by simp [hm2]))

/-- C9: on a page where none of the article selectors match, the HTML
fallback succeeds with exactly one synthetic entry whose link is the
page URL; and whenever article regions are found the result carries at
most ten entries (the fallback as a whole never exceeds ten). -/
theorem c9_html_fallback (strip : String → String) (sm : List (List HtmlRegion))
    (docTitle docContent pageText : String) (pageImage : Option String)
    (url : String) (now : Int) :
    ((∀ m ∈ sm, m = []) →
       ∃ it, (parse_html_fallback strip sm docTitle docContent pageText pageImage url now).items
           = [it] ∧ it.link = url) ∧
    (parse_html_fallback strip sm docTitle docContent pageText pageImage url now).success = true ∧
    (parse_html_fallback strip sm docTitle docContent pageText pageImage url now).items.length ≤ 10 := by
  refine ⟨?_, ?_, ?_⟩
  · intro h
    have hsel := selectArticles_eq_nil sm h
    simp only [parse_html_fallback, hsel, List.isEmpty_nil, Bool.not_true,
      Bool.false_eq_true, if_false]
    exact ⟨_, rfl, rfl⟩
  · rcases hA : selectArticles sm with _ | ⟨a, rest⟩
    · simp [parse_html_fallback, hA]
    · simp [parse_html_fallback, hA]
  · rcases hA : selectArticles sm with _ | ⟨a, rest⟩
    · simp [parse_html_fallback, hA]
    · simp [parse_html_fallback, hA]

/-- C9 witness at concrete inputs with no selector matches. -/
theorem c9_html_fallback_witness :
    (∀ m ∈ ([[], []] : List (List HtmlRegion)), m = []) ∧
    ∃ it, (parse_html_fallback (fun s => s) [[], []] "T" "body" "page" none
        "http://site.example/p" 0).items = [it] ∧ it.link = "http://site.example/p" :=
  ⟨by decide,
   (c9_html_fallback (fun s => s) [[], []] "T" "body" "page" none
      "http://site.example/p" 0).1 (by decide)⟩

/-- C6: the content fingerprint is the SHA-256 hex digest of exactly
the concatenation of the normalized title, summary and body — two
items (regardless of feed, GUID, link or any other field) whose
normalized concatenations coincide get equal fingerprints, and every
fingerprint is a fixed-width 64-character hex string. -/
theorem c6_fingerprint :
    (∀ (ora : NormOracle) (d1 d2 : RawDict),
        normalize_title ora.stripTags d1.title ++ normalize_summary ora.stripTags d1.summary ++
            normalize_content ora.htmlToMd d1.content =
          normalize_title ora.stripTags d2.title ++ normalize_summary ora.stripTags d2.summary ++
            normalize_content ora.htmlToMd d2.content →
        (normalize_item ora d1).content_hash = (normalize_item ora d2).content_hash) ∧
    (∀ (ora : NormOracle) (d : RawDict), (normalize_item ora d).content_hash.length = 64) := by
  constructor
  · intro ora d1 d2 h
    show hash_content _ = hash_content _
    exact congrArg hash_content h
  · intro ora d
    exact hash_content_length _

/-- C6 witness: two raw items from different feeds, with different
GUIDs and links, whose normalized fields concatenate to the same text
(`"ab" ++ "" ++ ""` and `"a" ++ "b" ++ ""`). -/
theorem c6_fingerprint_witness :
    (normalize_title ora0.stripTags exRaw1.title ++ normalize_summary ora0.stripTags exRaw1.summary ++
        normalize_content ora0.htmlToMd exRaw1.content =
      normalize_title ora0.stripTags exRaw2.title ++ normalize_summary ora0.stripTags exRaw2.summary ++
        normalize_content ora0.htmlToMd exRaw2.content) ∧
    (normalize_item ora0 exRaw1).content_hash = (normalize_item ora0 exRaw2).content_hash :=
  ⟨by decide, c6_fingerprint.1 ora0 exRaw1 exRaw2 (by decide)⟩

/-- Normalization never touches the GUID. -/
theorem normalize_item_guid (ora : NormOracle) (d : RawDict) :
    (normalize_item ora d).guid = d.guid := rfl

/-- A raw entry whose (feed id, GUID) pair is already present is
discarded without any state change. -/
theorem ingestOne_of_exists (ora : NormOracle) (mod : Option String) (feed : Feed)
    (now : Int) (st : DbState) (fi : FeedItemR)
    (h : itemExistsFor st feed.id fi.guid = true) :
    ingestOne ora mod feed now st fi = (st, false) := by
  simp [ingestOne, h]

/-- On a dedup miss, `ingestOne` appends exactly one item row carrying
the feed's id and the raw entry's GUID, and reports a new Entry. -/
theorem ingestOne_of_new (ora : NormOracle) (mod : Option String) (feed : Feed)
    (now : Int) (st : DbState) (fi : FeedItemR)
    (h : itemExistsFor st feed.id fi.guid = false) :
    ∃ x, (ingestOne ora mod feed now st fi).1.items = st.items ++ [x] ∧
      x.feed_id = feed.id ∧ x.guid = fi.guid ∧
      (ingestOne ora mod feed now st fi).2 = true := by
  simp only [ingestOne, h, Bool.false_eq_true, if_false]
  split
  · exact ⟨_, rfl, rfl, rfl, rfl⟩
  · exact ⟨_, rfl, rfl, rfl, rfl⟩

/-- The dedup lookup is monotone along one ingest step. -/
theorem itemExistsFor_ingestOne (ora : NormOracle) (mod : Option String) (feed : Feed)
    (now : Int) (st : DbState) (fi : FeedItemR) (f : Nat) (g : String)
    (h : itemExistsFor st f g = true) :
    itemExistsFor (ingestOne ora mod feed now st fi).1 f g = true := by
  by_cases hex : itemExistsFor st feed.id fi.guid = true
  · rw [ingestOne_of_exists ora mod feed now st fi hex]
    exact h
  · obtain ⟨x, heq, -, -, -⟩ :=
      ingestOne_of_new ora mod feed now st fi (by simpa using hex)
    simp only [itemExistsFor] at h ⊢
    rw [heq, List.any_append, h]
    rfl

/-- After one ingest step, the step's own (feed id, GUID) pair is
present. -/
theorem itemExistsFor_ingestOne_self (ora : NormOracle) (mod : Option String)
    (feed : Feed) (now : Int) (st : DbState) (fi : FeedItemR) :
    itemExistsFor (ingestOne ora mod feed now st fi).1 feed.id fi.guid = true := by
  by_cases hex : itemExistsFor st feed.id fi.guid = true
  · rw [ingestOne_of_exists ora mod feed now st fi hex]
    exact hex
  · obtain ⟨x, heq, hf, hg, -⟩ :=
      ingestOne_of_new ora mod feed now st fi (by simpa using hex)
    simp only [itemExistsFor]
    rw [heq, List.any_append]
    simp [hf, hg]

/-- The dedup lookup is monotone along a whole poll. -/
theorem itemExistsFor_poll (ora : NormOracle) (mod : Option String) (feed : Feed)
    (now : Int) (its : List FeedItemR) (st : DbState) (f : Nat) (g : String)
    (h : itemExistsFor st f g = true) :
    itemExistsFor (poll_single_feed ora mod feed now st its).1 f g = true := by
  induction its generalizing st with
  | nil => simpa [poll_single_feed] using h
  | cons fi rest ih =>
    simpa [poll_single_feed] using
      ih _ (itemExistsFor_ingestOne ora mod feed now st fi f g h)

/-- After a poll, every (feed id, GUID) pair of the payload is
present. -/
theorem itemExistsFor_poll_self (ora : NormOracle) (mod : Option String) (feed : Feed)
    (now : Int) (its : List FeedItemR) (st : DbState) :
    ∀ fi ∈ its, itemExistsFor (poll_single_feed ora mod feed now st its).1 feed.id fi.guid = true := by
  induction its generalizing st with
  | nil => intro fi h; cases h
  | cons fi2 rest ih =>
    intro fi h
    rcases List.mem_cons.mp h with rfl | hmem
    · simpa [poll_single_feed] using
        itemExistsFor_poll ora mod feed now rest _ feed.id fi.guid
          (itemExistsFor_ingestOne_self ora mod feed now st fi)
    · simpa [poll_single_feed] using ih _ fi hmem

/-- A poll whose every payload pair is already known is a no-op that
creates zero Entries. -/
theorem poll_of_all_exist (ora : NormOracle) (mod : Option String) (feed : Feed)
    (now : Int) (its : List FeedItemR) (st : DbState)
    (h : ∀ fi ∈ its, itemExistsFor st feed.id fi.guid = true) :
    poll_single_feed ora mod feed now st its = (st, 0) := by
  induction its with
  | nil => rfl
  | cons fi rest ih =>
    have h1 := h fi (by simp)
    have hskip := ingestOne_of_exists ora mod feed now st fi h1
    have hrest := ih (fun fi2 hm => h fi2 (by simp [hm]))
    simp [poll_single_feed, hskip, hrest]

/-- C1: polling the same feed twice with an unchanged payload creates
zero new Entries the second time and leaves the store exactly as the
first poll left it — the ingest gate looks up an existing Item by
(feed id, GUID) before persisting and skips the raw entry when one
exists, so a persisted (feed, GUID) pair never repeats.  The second
poll may even run at a different time or under a different moderation
setting. -/
theorem c1_guid_idempotence (ora : NormOracle) (mod mod2 : Option String)
    (feed : Feed) (now now2 : Int) (st : DbState) (its : List FeedItemR) :
    poll_single_feed ora mod2 feed now2 (poll_single_feed ora mod feed now st its).1 its
      = ((poll_single_feed ora mod feed now st its).1, 0) :=
  poll_of_all_exist ora mod2 feed now2 its _
    (fun fi h => itemExistsFor_poll_self ora mod feed now its st fi h)

/-- C2: a newly ingested Entry is routed by the `moderation_enabled`
setting read at ingestion time — `'true'` sends the item to the
moderation preview and creates no QueueEntry, while `'false'` creates
exactly one QueueEntry for it, whose initial status is `pending`. -/
theorem c2_moderation_gate (ora : NormOracle) (mod : Option String) (feed : Feed)
    (now : Int) (st : DbState) (fi : FeedItemR)
    (hnew : itemExistsFor st feed.id fi.guid = false) :
    (mod = some "true" → (ingestOne ora mod feed now st fi).1.queue = st.queue) ∧
    (mod = some "false" →
      ∃ q, (ingestOne ora mod feed now st fi).1.queue = st.queue ++ [q] ∧
        q.status = "pending" ∧ q.item_id = nextItemId st) := by
  constructor
  · intro hmod
    subst hmod
    simp [ingestOne, hnew]
  · intro hmod
    subst hmod
    simp only [ingestOne, hnew, Bool.false_eq_true, if_false]
    exact ⟨_, rfl, rfl, rfl⟩

/-- C2 witness: a fresh store, one raw entry, both settings. -/
theorem c2_moderation_gate_witness :
    itemExistsFor emptyDb exFeed.id exFeedItem.guid = false ∧
    (ingestOne ora0 (some "true") exFeed 0 emptyDb exFeedItem).1.queue = emptyDb.queue ∧
    (∃ q, (ingestOne ora0 (some "false") exFeed 0 emptyDb exFeedItem).1.queue
        = emptyDb.queue ++ [q] ∧ q.status = "pending" ∧ q.item_id = nextItemId emptyDb) :=
  ⟨by decide,
   (c2_moderation_gate ora0 (some "true") exFeed 0 emptyDb exFeedItem (by decide)).1 rfl,
   (c2_moderation_gate ora0 (some "false") exFeed 0 emptyDb exFeedItem (by decide)).2 rfl⟩

/-- C3 (counterexample): processing a `story` queue entry commits the
transition `processing → failed` with the attempt count unchanged
(scheduler.py lines 374-380 set the status and message but never touch
`attempts`), so not every `processing → failed` transition increments
the attempt count by exactly one. -/
theorem c3_counterexample :
    process_queue_item exItemDb (some "ch") (true, "") 5 exStoryQ = [exStoryQProc, exStoryQFailed] ∧
    exStoryQProc.status = "processing" ∧ exStoryQFailed.status = "failed" ∧
    exStoryQFailed.attempts = exStoryQProc.attempts := by
  decide

/-- C3 (amended): no step of `_process_queue_item` ever decreases the
attempt count; the generic `post` failure path (missing default
channel or failed delivery) ends `failed` with the count incremented
by exactly one, while the `story` and missing-item paths mark `failed`
without incrementing; and a drain cycle selects only `pending`
entries, so a `failed` entry — terminal immediately, since nothing in
the program re-arms it and the `retry_attempts` ceiling is never
consulted — is never processed again. -/
theorem c3_attempts_amended (st : DbState) (ch : Option String) (res : Bool × String)
    (now : Int) (q : QueueItem) :
    (∀ q2 ∈ process_queue_item st ch res now q, q.attempts ≤ q2.attempts) ∧
    (q.type = "post" →
      (st.items.find? (fun it => it.id == q.item_id)).isSome = true →
      (ch = none ∨ res.1 = false) →
      ∃ qf ∈ process_queue_item st ch res now q,
        qf.status = "failed" ∧ qf.attempts = q.attempts + 1) ∧
    (∀ (queue : List QueueItem) (now2 : Int),
      ∀ q2 ∈ select_batch queue now2, q2.status = "pending") := by
  refine ⟨?_, ?_, ?_⟩
  · intro q2 hq2
    simp only [process_queue_item] at hq2
    split at hq2
    · simp only [List.mem_singleton] at hq2
      subst hq2
      exact Nat.le_refl _
    · split at hq2
      · split at hq2 <;>
          [skip; split at hq2] <;>
          simp only [List.mem_cons, List.mem_singleton, List.not_mem_nil, or_false] at hq2 <;>
          rcases hq2 with rfl | rfl <;> simp
      · split at hq2 <;>
          simp only [List.mem_cons, List.mem_singleton, List.not_mem_nil, or_false] at hq2
        · rcases hq2 with rfl | rfl <;> simp
        · rcases hq2 with rfl
          exact Nat.le_refl _
  · intro hpost hfound hfail
    simp only [process_queue_item, hpost, beq_self_eq_true, if_true]
    rw [show (st.items.find? (fun it => it.id == q.item_id)).isNone = false by
      simpa [Option.isNone_iff_eq_none] using Option.isSome_iff_ne_none.mp hfound]
    simp only [Bool.false_eq_true, if_false]
    rcases hfail with rfl | hres
    · exact ⟨_, List.mem_cons_of_mem _ (List.mem_cons_self _ _), rfl, rfl⟩
    · cases ch with
      | none => exact ⟨_, List.mem_cons_of_mem _ (List.mem_cons_self _ _), rfl, rfl⟩
      | some c =>
        rw [show res.1 = false from hres]
        exact ⟨_, List.mem_cons_of_mem _ (List.mem_cons_self _ _), rfl, rfl⟩
  · intro queue now2 q2 hq2
    exact (select_batch_mem queue now2 q2 hq2).1

/-- C3 (amended) witness: a `post` entry with no default channel ends
`failed` with exactly one more attempt, and a concrete drain selection
contains only pending entries. -/
theorem c3_attempts_amended_witness :
    (exPostQ.type = "post" ∧
      (exItemDb.items.find? (fun it => it.id == exPostQ.item_id)).isSome = true) ∧
    (∃ qf ∈ process_queue_item exItemDb none (true, "") 5 exPostQ,
        qf.status = "failed" ∧ qf.attempts = exPostQ.attempts + 1) ∧
    exStoryQ.attempts ≤ exStoryQProc.attempts ∧
    exQ1.status = "pending" :=
  ⟨⟨rfl, by decide⟩,
   (c3_attempts_amended exItemDb none (true, "") 5 exPostQ).2.1 rfl (by decide) (Or.inl rfl),
   (c3_attempts_amended exItemDb none (true, "") 5 exStoryQ).1 exStoryQProc (by decide),
   (c3_attempts_amended exItemDb none (true, "") 5 exPostQ).2.2 [exQ1] 10 exQ1 (by decide)⟩

end RSSBot
